import Mathlib

/-!
Shallow embedding of src/v3/src/state/StateManager.js (Phaser v3 state
manager).  State objects live in a heap (`objs`, indexed by position, the
index playing the role of a JS object reference); the manager fields
`keys`, `states`, `active` and `_pending` mirror the source.  Hook bodies
(init, preload, create, ...) are caller-supplied opaque code: we record
their invocation as events and model the only observable effect the
manager depends on, namely how many loadable items a preload enqueues
(`preloadAdds`).  The loader, the per-state main-loop driver and the
renderer are external collaborators; the parts of their behaviour the
manager observes (queue size, running flag, one-shot completion event)
are carried as fields of the state object.
-/

namespace PhaserSM

/-- One registered State object (the heap cell a JS reference points at).
Fields mirror what StateManager.js reads and writes on a state:
`settings.key`, `settings.active`, truthiness of the hook slots,
`hasOwnProperty("loadUpdate")`, `sys.load` (the loader handle),
`sys.load.list.size`, the one-shot LOADER_COMPLETE subscription, whether
the loader was commanded to start, `sys.updates.running` and
`sys.mainloop.running`.  `preloadAdds` is the number of loadables the
caller-supplied preload hook enqueues when invoked. -/
structure StateObj where
  key : String
  active : Bool
  hasInit : Bool
  hasPreload : Bool
  hasCreate : Bool
  hasLoadUpdate : Bool
  hasLoad : Bool
  loadListSize : Nat
  preloadAdds : Nat
  loadOnceSubscribed : Bool
  loaderStarted : Bool
  updatesRunning : Bool
  mainloopRunning : Bool
  deriving DecidableEq, Repr

/-- Default cell returned when a heap lookup is out of range (never happens
on managers built by the operations themselves). -/
def defaultStateObj : StateObj :=
  { key := "", active := false, hasInit := false, hasPreload := false,
    hasCreate := false, hasLoadUpdate := false, hasLoad := false,
    loadListSize := 0, preloadAdds := 0, loadOnceSubscribed := false,
    loaderStarted := false, updatesRunning := false, mainloopRunning := false }

instance : Inhabited StateObj := ⟨defaultStateObj⟩

/-- An entry of the `active` array: the object literal
`\x7b index: i, state: state \x7d` pushed by `startCreate`. -/
structure ActiveRecord where
  index : Int
  state : Nat
  deriving DecidableEq, Repr

/-- A plain configuration record passed to `add` (the
`typeof stateConfig === "object"` shape).  `key?` is `some k` exactly when
the record has an own `key` property (value `k`); `activeFlag` is the
`active` setting the constructed State inherits from the record;
`hasLoadUpdate` records whether the constructed state ends up owning a
`loadUpdate` property; `preloadAdds` is how many loadables the record's
preload callback enqueues (0 covers both an absent preload, which
`setupCallbacks` replaces by NOOP, and a preload that enqueues nothing). -/
structure Config where
  key? : Option String
  activeFlag : Bool
  hasLoadUpdate : Bool
  preloadAdds : Nat
  deriving DecidableEq, Repr

/-- Result of invoking a factory function passed to `add`
(`createStateFromFunction` checks `newState instanceof State`). -/
inductive FuncResult where
  | isState (s : StateObj)
  | bare (c : Config)
  deriving DecidableEq, Repr

/-- The three input shapes `add` accepts: a State instance, a plain
configuration record, or a factory function (represented by what
`new state()` returns). -/
inductive Source where
  | inst (s : StateObj)
  | config (c : Config)
  | func (r : FuncResult)
  deriving DecidableEq, Repr

/-- A `_pending` entry: `\x7b index, key, state, autoStart \x7d`.  The key is
kept as passed (`none` models an undefined key argument). -/
structure PendingEntry where
  index : Nat
  key : Option String
  state : Source
  autoStart : Bool
  deriving DecidableEq, Repr

/-- The StateManager state: `keys` (string-to-reference map, kept as an
insertion-ordered association list), `states` (ordered list of
references), `active` (the Active Set), `_pending` (boot deferral queue)
and the host flag `game.isBooted` the manager reads. -/
structure StateManager where
  objs : List StateObj
  keys : List (String × Nat)
  states : List Nat
  active : List ActiveRecord
  pending : List PendingEntry
  booted : Bool
  deriving DecidableEq, Repr

/-- Hook-invocation and collaborator-command events, in program order. -/
inductive HookEv where
  | init (sid : Nat)
  | preload (sid : Nat)
  | create (sid : Nat)
  | loadUpdate (sid : Nat)
  | loaderReset (sid : Nat)
  | loaderStart (sid : Nat)
  | mlStart (sid : Nat)
  | mlStep (sid : Nat) (ts : Int)
  deriving DecidableEq, Repr

/-- The JS values this module compares with strict equality: key strings,
references to State objects, and references to ActiveRecord wrapper
objects.  Distinct constructors are never strictly equal (a string is
never === an object; a wrapper record is a different allocation from the
state it wraps).  Wrapper records are only ever compared against strings
or state references in this code, so representing them structurally is
faithful. -/
inductive JSVal where
  | str (s : String)
  | stateRef (id : Nat)
  | activeRecRef (index : Int) (state : Nat)
  deriving DecidableEq, Repr

/-- JS strict equality (===) on the values above. -/
def jsStrictEq (a b : JSVal) : Bool := a == b

/-- Heap read: dereference a state-object reference. -/
def getObj (m : StateManager) (sid : Nat) : StateObj :=
  m.objs.getD sid defaultStateObj

/-- Heap write: mutate the state object a reference points at. -/
def setObj (m : StateManager) (sid : Nat) (f : StateObj → StateObj) : StateManager :=
  { m with objs := m.objs.set sid (f (getObj m sid)) }

/-- Source getState: `return this.keys[key]`. -/
def getState (m : StateManager) (key : String) : Option Nat :=
  (m.keys.find? (fun kv => kv.1 == key)).map (fun kv => kv.2)

/-- Source getStateIndex: `return this.states.indexOf(state)` (-1 when
absent, as in JS). -/
def getStateIndex (m : StateManager) (sid : Nat) : Int :=
  match m.states.findIdx? (fun s => s == sid) with
  | some i => (i : Int)
  | none => -1

/-- Source getActiveStateIndex: scan `this.active` for a record whose
`state` field is strictly equal to the argument, returning that record's
`index` field, else -1.  The argument is whatever JS value the caller
passed (pause passes the key string). -/
def getActiveStateIndex (m : StateManager) (v : JSVal) : Int :=
  match m.active.find? (fun r => jsStrictEq (JSVal.stateRef r.state) v) with
  | some r => r.index
  | none => -1

/-- Source `this.active.indexOf(v)`: position of the first element of the
active array strictly equal to `v`, else -1.  The elements are the
ActiveRecord wrapper objects. -/
def activeIndexOf (m : StateManager) (v : JSVal) : Int :=
  match m.active.findIdx? (fun r => jsStrictEq (JSVal.activeRecRef r.index r.state) v) with
  | some i => (i : Int)
  | none => -1

/-- Source isActive:
`state && state.settings.active && this.active.indexOf(state) !== -1`.
Note the indexOf is over the wrapper records while `state` is the state
object itself. -/
def isActive (m : StateManager) (key : String) : Bool :=
  match getState m key with
  | none => false
  | some sid =>
      (getObj m sid).active && (activeIndexOf m (JSVal.stateRef sid) != -1)

/-- Source sortStates comparator: -1 / 1 / 0 on the `index` fields. -/
def sortStates (a b : ActiveRecord) : Int :=
  if a.index < b.index then -1 else if a.index > b.index then 1 else 0

/-- Ordering the comparator induces on records: a may come before b. -/
def recLE (a b : ActiveRecord) : Prop := sortStates a b ≤ 0

instance : DecidableRel recLE := fun a b =>
  inferInstanceAs (Decidable (sortStates a b ≤ 0))

instance : IsTotal ActiveRecord recLE := by
  constructor
  intro a b
  unfold recLE sortStates
  rcases lt_trichotomy a.index b.index with h | h | h
  · left; simp [h]
  · left; simp [h, lt_irrefl]
  · right; simp [h]

instance : IsTrans ActiveRecord recLE := by
  constructor
  intro a b c hab hbc
  unfold recLE sortStates at *
  split at hab <;> split at hbc <;> split <;> omega

/-- Source `this.active.sort(this.sortStates.bind(this))`: a stable sort
by the comparator (orderedInsert places an element before the first
element not strictly below it, preserving relative order of ties). -/
def sortActive (l : List ActiveRecord) : List ActiveRecord :=
  l.insertionSort recLE

/-- Source startCreate: invoke `create` if present, push
`\x7b index: this.getStateIndex(state), state \x7d` onto `active`, sort by the
comparator, set `sys.updates.running = true` and command
`sys.mainloop.start()`.  The driver setting its `running` flag on `start()`
is the collaborator behaviour the spec describes (MainLoop source is not
under src/): Modelled from the spec, the main-loop driver reports running
once commanded to start. -/
def startCreate (m : StateManager) (sid : Nat) : StateManager × List HookEv :=
  let evC : List HookEv := if (getObj m sid).hasCreate then [HookEv.create sid] else []
  let i := getStateIndex m sid
  let m1 : StateManager := { m with active := sortActive (m.active ++ [⟨i, sid⟩]) }
  let m2 := setObj m1 sid (fun s => { s with updatesRunning := true, mainloopRunning := true })
  (m2, evC ++ [HookEv.mlStart sid])

/-- Source loadComplete: resolve the state from the event, invoke the
deprecated `loadUpdate` hook once if the state owns one, then startCreate. -/
def loadComplete (m : StateManager) (sid : Nat) : StateManager × List HookEv :=
  let evLU : List HookEv := if (getObj m sid).hasLoadUpdate then [HookEv.loadUpdate sid] else []
  let r := startCreate m sid
  (r.1, evLU ++ r.2)

/-- Modelled from the spec: the loader collaborator emitting its
LOADER_COMPLETE event into the one-shot subscription `start` registered
with `events.once` — the subscription is auto-removed before the handler
(StateManager.loadComplete) runs, so a second emission is a no-op. -/
def fireLoaderComplete (m : StateManager) (sid : Nat) : StateManager × List HookEv :=
  if (getObj m sid).loadOnceSubscribed then
    loadComplete (setObj m sid (fun s => { s with loadOnceSubscribed := false })) sid
  else
    (m, [])

/-- Source start.  Pre-boot: flip `autoStart` on every pending entry with
a matching key and return.  Post-boot: look up the state (absent: no-op);
bail out if `isActive`; set `settings.active = true`; invoke `init` if
truthy; if `preload` and `sys.load` are truthy, reset the loader queue,
invoke `preload` (which enqueues `preloadAdds` loadables), then either
startCreate (empty queue) or subscribe once to LOADER_COMPLETE and command
the loader to start (non-empty queue); with no preload/loader, startCreate
directly. -/
def start (m : StateManager) (key : String) : StateManager × List HookEv :=
  if m.booted = false then
    ({ m with pending := m.pending.map (fun p =>
        if p.key == some key then { p with autoStart := true } else p) }, [])
  else
    match getState m key with
    | none => (m, [])
    | some sid =>
      if isActive m key then
        (m, [])
      else
        let m1 := setObj m sid (fun s => { s with active := true })
        let s1 := getObj m1 sid
        let evInit : List HookEv := if s1.hasInit then [HookEv.init sid] else []
        if s1.hasPreload && s1.hasLoad then
          let m2 := setObj m1 sid (fun s => { s with loadListSize := 0 })
          let m3 := setObj m2 sid (fun s => { s with loadListSize := s.loadListSize + s.preloadAdds })
          let evPre : List HookEv := [HookEv.loaderReset sid, HookEv.preload sid]
          if (getObj m3 sid).loadListSize = 0 then
            let r := startCreate m3 sid
            (r.1, evInit ++ evPre ++ r.2)
          else
            let m4 := setObj m3 sid (fun s =>
              { s with loadOnceSubscribed := true, loaderStarted := true })
            (m4, evInit ++ evPre ++ [HookEv.loaderStart sid])
        else
          let r := startCreate m1 sid
          (r.1, evInit ++ r.2)

/-- Source pause: `var index = this.getActiveStateIndex(key)` — the KEY
STRING is passed where getActiveStateIndex compares against state object
references.  If the lookup succeeds, clear `settings.active`, splice the
record out at array position `index` and re-sort. -/
def pause (m : StateManager) (key : String) : StateManager :=
  let index := getActiveStateIndex m (JSVal.str key)
  if index > -1 then
    match getState m key with
    | none => m
    | some sid =>
        let m1 := setObj m sid (fun s => { s with active := false })
        let m2 : StateManager := { m1 with active := sortActive (m1.active.eraseIdx index.toNat) }
        m2
  else
    m

/-- Source step loop body, recursing over the active array in order. -/
def stepLoop (m : StateManager) (ts : Int) : List ActiveRecord → List HookEv
  | [] => []
  | r :: rest =>
      if (getObj m r.state).mainloopRunning then
        HookEv.mlStep r.state ts :: stepLoop m ts rest
      else
        stepLoop m ts rest

/-- Source step: for every record of `active`, in order, forward the
timestamp to `state.sys.mainloop.step` when that driver reports running.
The driver is external; its step is recorded as an event. -/
def step (m : StateManager) (ts : Int) : List HookEv :=
  stepLoop m ts m.active

/-- Key-resolution part of source getKey (lines before the duplicate
check): default the absent/empty key argument to "default", then override
with `settings.key` for a State instance, or with the record's own `key`
property for a plain object. -/
def resolveKey (key? : Option String) (src : Source) : String :=
  let key := match key? with
    | none => "default"
    | some k => if k = "" then "default" else k
  match src with
  | Source.inst s => s.key
  | Source.config c =>
      match c.key? with
      | some k => k
      | none => key
  | Source.func _ => key

/-- Source getKey: resolve the key, then throw on a duplicate
(`this.keys.hasOwnProperty(key)`), else return it. -/
def getKey (m : StateManager) (key? : Option String) (src : Source) : Except String String :=
  let key := resolveKey key? src
  if m.keys.any (fun kv => kv.1 == key) then
    Except.error ("Cannot add a State with duplicate key: " ++ key)
  else
    Except.ok key

/-- Modelled from the spec: `sys.init` (Systems.js is not under src/)
wires the state's private subsystem handles — a fresh loader (handle
present, empty queue, nothing subscribed or started) and a fresh
main-loop driver (not yet running). -/
def sysInit (s : StateObj) : StateObj :=
  { s with hasLoad := true, loadListSize := 0, loadOnceSubscribed := false,
           loaderStarted := false, updatesRunning := false, mainloopRunning := false }

/-- Source createStateFromInstance: assign `settings.key`, run
`sys.init()`.  The renderer offscreen-target request (WEBGL branch) is an
opaque collaborator call with no effect on the modelled state. -/
def createStateFromInstance (key : String) (s : StateObj) : StateObj :=
  sysInit { s with key := key }

/-- Source createStateFromObject followed by setupCallbacks: construct a
State from the record (settings key/active from the record — State.js and
Settings.js are not under src/, Modelled from the spec there), run
`sys.init()`, then extract the hook set with NOOP defaults — so every
listed hook slot is truthy afterwards.  `loadUpdate` is not among the
slots setupCallbacks assigns; the state owns one exactly when the record
supplied one. -/
def createStateFromObject (key : String) (c : Config) : StateObj :=
  sysInit
    { key := key, active := c.activeFlag, hasInit := true, hasPreload := true,
      hasCreate := true, hasLoadUpdate := c.hasLoadUpdate, hasLoad := false,
      loadListSize := 0, preloadAdds := c.preloadAdds, loadOnceSubscribed := false,
      loaderStarted := false, updatesRunning := false, mainloopRunning := false }

/-- Source createStateFromFunction: invoke the factory; a State instance
takes the instance path; a bare object gets fresh settings (key, active
flag from the object), fresh systems, `sys.init()`, and setupCallbacks on
the object itself — same normalized shape as the record path. -/
def createStateFromFunction (key : String) (r : FuncResult) : StateObj :=
  match r with
  | FuncResult.isState s => createStateFromInstance key s
  | FuncResult.bare c => createStateFromObject key c

/-- What an `add` call returns to its caller: the manager afterwards, the
outcome (a thrown duplicate-key error, the new state reference, or `none`
for a deferred pre-boot registration), the caller's source value after the
call (`add` assigns `stateConfig.key` on plain records, and
`settings.key`/`sys.init` on passed instances), and the hook events run. -/
structure AddResult where
  mgr : StateManager
  result : Except String (Option Nat)
  srcAfter : Source
  events : List HookEv
  deriving Repr

/-- Source add.  Pre-boot: push `\x7b index: this._pending.length, key,
state, autoStart \x7d` and return (no StateEntry is created).  Post-boot:
getKey (throwing on duplicates leaves everything untouched), build the
state through the adapter branch for its shape (the record branch first
mutates the caller's record: `stateConfig.key = key`), store it under the
key and append it to `states`, then start it when `autoStart` or the new
state's `settings.active` is set (the `_start` fallback branch of the
source is unreachable here: `game.isBooted` was already checked). -/
def add (m : StateManager) (key? : Option String) (src : Source) (autoStart : Bool) : AddResult :=
  if m.booted = false then
    { mgr := { m with pending :=
        m.pending ++ [⟨m.pending.length, key?, src, autoStart⟩] },
      result := Except.ok none, srcAfter := src, events := [] }
  else
    match getKey m key? src with
    | Except.error e =>
        { mgr := m, result := Except.error e, srcAfter := src, events := [] }
    | Except.ok key =>
        let built : StateObj × Source :=
          match src with
          | Source.inst s =>
              let s1 := createStateFromInstance key s
              (s1, Source.inst s1)
          | Source.config c =>
              let c1 : Config := { c with key? := some key }
              (createStateFromObject key c1, Source.config c1)
          | Source.func r =>
              (createStateFromFunction key r, Source.func r)
        let sid := m.objs.length
        let m1 : StateManager :=
          { m with objs := m.objs ++ [built.1],
                   keys := m.keys ++ [(key, sid)],
                   states := m.states ++ [sid] }
        if autoStart || built.1.active then
          let r := start m1 key
          { mgr := r.1, result := Except.ok (some sid), srcAfter := built.2, events := r.2 }
        else
          { mgr := m1, result := Except.ok (some sid), srcAfter := built.2, events := [] }

/-- Source boot: replay every pending entry through `add` with its
original key, source and autoStart, then clear `_pending`.  The host sets
`game.isBooted` before invoking boot, and post-boot `add` never touches
`_pending`, so folding over the queue snapshot matches the source's index
loop over the live array. -/
def boot (m : StateManager) : StateManager × List HookEv :=
  let r := m.pending.foldl
    (fun (acc : StateManager × List HookEv) p =>
      let ar := add acc.1 p.key p.state p.autoStart
      (ar.mgr, acc.2 ++ ar.events))
    (m, [])
  ({ r.1 with pending := [] }, r.2)

/-- The Active Set invariant the spec states: records in ascending
comparator order. -/
def sortedByIndex (l : List ActiveRecord) : Prop := l.Sorted recLE

instance (l : List ActiveRecord) : Decidable (sortedByIndex l) :=
  inferInstanceAs (Decidable (l.Pairwise recLE))

/- Helper lemmas about the embedding. -/

theorem setObj_active (m : StateManager) (sid : Nat) (f : StateObj → StateObj) :
    (setObj m sid f).active = m.active := rfl

theorem setObj_keys (m : StateManager) (sid : Nat) (f : StateObj → StateObj) :
    (setObj m sid f).keys = m.keys := rfl

theorem setObj_states (m : StateManager) (sid : Nat) (f : StateObj → StateObj) :
    (setObj m sid f).states = m.states := rfl

theorem setObj_objs_length (m : StateManager) (sid : Nat) (f : StateObj → StateObj) :
    (setObj m sid f).objs.length = m.objs.length := by
  simp [setObj]

theorem getState_setObj (m : StateManager) (sid : Nat) (f : StateObj → StateObj) (key : String) :
    getState (setObj m sid f) key = getState m key := rfl

theorem getStateIndex_setObj (m : StateManager) (sid t : Nat) (f : StateObj → StateObj) :
    getStateIndex (setObj m sid f) t = getStateIndex m t := rfl

theorem getObj_setObj (m : StateManager) (sid : Nat) (f : StateObj → StateObj)
    (h : sid < m.objs.length) :
    getObj (setObj m sid f) sid = f (getObj m sid) := by
  simp only [getObj, setObj, List.getD, List.get?_eq_getElem?]
  rw [List.getElem?_set_eq_of_lt _ h]
  rfl

theorem jsStrictEq_recRef_stateRef (i : Int) (s t : Nat) :
    jsStrictEq (JSVal.activeRecRef i s) (JSVal.stateRef t) = false := by
  simp [jsStrictEq]

theorem jsStrictEq_stateRef_str (s : Nat) (k : String) :
    jsStrictEq (JSVal.stateRef s) (JSVal.str k) = false := by
  simp [jsStrictEq]

theorem findIdx?_false {α : Type} (p : α → Bool) (l : List α) (h : ∀ x ∈ l, p x = false) :
    ∀ i, l.findIdx? p i = none := by
  induction l with
  | nil => intro i; rfl
  | cons x xs ih =>
      intro i
      rw [List.findIdx?_cons, h x (by simp)]
      simp only [Bool.false_eq_true, if_false]
      exact ih (fun y hy => h y (by simp [hy])) (i + 1)

theorem activeIndexOf_stateRef (m : StateManager) (sid : Nat) :
    activeIndexOf m (JSVal.stateRef sid) = -1 := by
  unfold activeIndexOf
  rw [findIdx?_false
        (fun r => jsStrictEq (JSVal.activeRecRef r.index r.state) (JSVal.stateRef sid))
        m.active (fun r _ => jsStrictEq_recRef_stateRef r.index r.state sid)]

/-- isActive compares the state object reference against the ActiveRecord
wrapper objects held in the active array, so it never finds a match: the
function returns false on every input. -/
theorem isActive_eq_false (m : StateManager) (key : String) : isActive m key = false := by
  unfold isActive
  cases h : getState m key with
  | none => rfl
  | some sid => simp [activeIndexOf_stateRef]

theorem startCreate_active (m : StateManager) (sid : Nat) :
    (startCreate m sid).1.active = sortActive (m.active ++ [⟨getStateIndex m sid, sid⟩]) := rfl

theorem startCreate_sorted (m : StateManager) (sid : Nat) :
    sortedByIndex (startCreate m sid).1.active := by
  rw [startCreate_active]
  exact List.sorted_insertionSort recLE _

theorem sortActive_sorted (l : List ActiveRecord) : sortedByIndex (sortActive l) :=
  List.sorted_insertionSort recLE l

theorem mem_sortActive (r : ActiveRecord) (l : List ActiveRecord) :
    r ∈ sortActive l ↔ r ∈ l := List.mem_insertionSort recLE

/-- Whatever branch start takes, the active array is either untouched or
freshly sorted. -/
theorem start_active_shape (m : StateManager) (key : String) :
    (start m key).1.active = m.active ∨
    ∃ l, (start m key).1.active = sortActive l := by
  unfold start
  by_cases hb : m.booted = false
  · left
    rw [if_pos hb]
  · rw [if_neg hb]
    cases hg : getState m key with
    | none => left; rfl
    | some sid =>
        simp only [isActive_eq_false, Bool.false_eq_true, if_false]
        split
        · split
          · right; exact ⟨_, startCreate_active _ _⟩
          · left; rfl
        · right; exact ⟨_, startCreate_active _ _⟩

/-- Whatever branch pause takes, the active array is either untouched or
freshly sorted. -/
theorem pause_active_shape (m : StateManager) (key : String) :
    (pause m key).active = m.active ∨
    ∃ l, (pause m key).active = sortActive l := by
  unfold pause
  dsimp only
  split
  · cases hg : getState m key with
    | none => left; rfl
    | some sid => right; exact ⟨_, rfl⟩
  · left; rfl

/- Concrete fixtures used by the scenario theorems. -/

/-- A normalized state object with a loader handle and no preload work. -/
def sDemo : StateObj :=
  { key := "a", active := false, hasInit := true, hasPreload := false,
    hasCreate := true, hasLoadUpdate := false, hasLoad := true,
    loadListSize := 0, preloadAdds := 0, loadOnceSubscribed := false,
    loaderStarted := false, updatesRunning := false, mainloopRunning := false }

/-- A booted manager holding one started state under key "a": active flag
set, its ActiveRecord in the Active Set, its driver running — exactly what
startCreate leaves behind. -/
def mActiveDemo : StateManager :=
  { objs := [{ sDemo with active := true, updatesRunning := true, mainloopRunning := true }],
    keys := [("a", 0)], states := [0], active := [⟨0, 0⟩], pending := [],
    booted := true }

/-- A booted manager holding one registered, not yet started state. -/
def mFreshDemo : StateManager :=
  { objs := [sDemo], keys := [("a", 0)], states := [0], active := [],
    pending := [], booted := true }

/-- Three registered states (indices 0, 1, 2) for the out-of-order start
scenario. -/
def mThreeDemo : StateManager :=
  { objs := [sDemo, { sDemo with key := "b" }, { sDemo with key := "c" }],
    keys := [("a", 0), ("b", 1), ("c", 2)], states := [0, 1, 2], active := [],
    pending := [], booted := true }

/-- A booted manager holding one registered state whose preload enqueues
two loadables. -/
def mLoadDemo : StateManager :=
  { objs := [{ sDemo with hasPreload := true, preloadAdds := 2 }],
    keys := [("a", 0)], states := [0], active := [], pending := [],
    booted := true }

/-- An empty manager that has not booted yet. -/
def mUnbooted : StateManager :=
  { objs := [], keys := [], states := [], active := [], pending := [],
    booted := false }

/-- A trivial factory-function source. -/
def srcFuncDemo : Source :=
  Source.func (FuncResult.bare
    { key? := none, activeFlag := false, hasLoadUpdate := false, preloadAdds := 0 })

/- Claim theorems. -/

/-- C1: refuted by the code as written.  State 0 is Active in
mActiveDemo (flag true, record in the Active Set), yet pause leaves the
manager completely unchanged: pause hands the key string to
getActiveStateIndex, which compares it with strict equality against State
object references, so the lookup always returns -1 and the removal branch
is dead. -/
theorem pause_on_active_state_changes_nothing :
    (getObj mActiveDemo 0).active = true ∧
    mActiveDemo.active = [⟨0, 0⟩] ∧
    pause mActiveDemo "a" = mActiveDemo := by decide

/-- C2: refuted by the code as written.  After one start, a second
start on the same key re-runs the init and create hooks and pushes a
duplicate ActiveRecord: isActive searches the active array for the State
object itself, but the array holds ActiveRecord wrapper objects, so the
already-started guard never fires. -/
theorem start_twice_duplicates_record :
    (start mFreshDemo "a").1.active = [⟨0, 0⟩] ∧
    (start (start mFreshDemo "a").1 "a").2 =
      [HookEv.init 0, HookEv.create 0, HookEv.mlStart 0] ∧
    (start (start mFreshDemo "a").1 "a").1.active = [⟨0, 0⟩, ⟨0, 0⟩] := by decide

/-- C5: the Active Set stays sorted ascending by registration index:
startCreate always re-sorts after its insertion, start and pause preserve
sortedness on every branch, and the three-state out-of-order scenario
(started c, a, b) ends in registration order 0, 1, 2. -/
theorem active_set_sorted :
    (∀ m sid, sortedByIndex (startCreate m sid).1.active) ∧
    (∀ m key, sortedByIndex m.active → sortedByIndex (start m key).1.active) ∧
    (∀ m key, sortedByIndex m.active → sortedByIndex (pause m key).active) ∧
    (start (start (start mThreeDemo "c").1 "a").1 "b").1.active =
      [⟨0, 0⟩, ⟨1, 1⟩, ⟨2, 2⟩] := by
  refine ⟨fun m sid => startCreate_sorted m sid, ?_, ?_, by decide⟩
  · intro m key h
    rcases start_active_shape m key with he | ⟨l, he⟩
    · rw [he]; exact h
    · rw [he]; exact sortActive_sorted l
  · intro m key h
    rcases pause_active_shape m key with he | ⟨l, he⟩
    · rw [he]; exact h
    · rw [he]; exact sortActive_sorted l

/-- C5 witness: the sortedness conclusions applied to the concrete
three-state scenario. -/
theorem active_set_sorted_witness :
    sortedByIndex (start mThreeDemo "c").1.active ∧
    sortedByIndex (pause mActiveDemo "a").active :=
  ⟨active_set_sorted.2.1 mThreeDemo "c" (by decide),
   active_set_sorted.2.2.1 mActiveDemo "a" (by decide)⟩

/-- The step loop emits exactly the events of the running actives, in
array order. -/
theorem stepLoop_eq (m : StateManager) (ts : Int) (l : List ActiveRecord) :
    stepLoop m ts l =
      (l.filter (fun r => (getObj m r.state).mainloopRunning)).map
        (fun r => HookEv.mlStep r.state ts) := by
  induction l with
  | nil => rfl
  | cons r rest ih =>
      cases hr : (getObj m r.state).mainloopRunning <;>
        simp [stepLoop, hr, ih, List.filter_cons]

/-- C7: step forwards the timestamp exactly to the Active Set members
whose driver reports running, in sorted (array) order; a state absent
from the Active Set, or whose driver is not running, never receives a
step. -/
theorem step_only_running_active (m : StateManager) (ts : Int) :
    step m ts =
      (m.active.filter (fun r => (getObj m r.state).mainloopRunning)).map
        (fun r => HookEv.mlStep r.state ts) ∧
    ∀ sid, ((∀ r ∈ m.active, r.state ≠ sid) ∨ (getObj m sid).mainloopRunning = false) →
      HookEv.mlStep sid ts ∉ step m ts := by
  constructor
  · exact stepLoop_eq m ts m.active
  · intro sid hcond hmem
    rw [step, stepLoop_eq] at hmem
    rcases List.mem_map.mp hmem with ⟨r, hrf, heq⟩
    have hrs : r.state = sid := by
      cases heq
      rfl
    rcases List.mem_filter.mp hrf with ⟨hra, hrun⟩
    cases hcond with
    | inl h => exact h r hra hrs
    | inr h =>
        rw [hrs, h] at hrun
        exact absurd hrun (by simp)

/-- C7 witness: in the one-active-state fixture, the unregistered
reference 5 never receives a step. -/
theorem step_only_running_active_witness :
    HookEv.mlStep 5 7 ∉ step mActiveDemo 7 :=
  (step_only_running_active mActiveDemo 7).2 5 (Or.inl (by decide))

/-- C3: a post-boot add whose resolved key is already registered throws
the duplicate-key error and changes nothing: manager (key map, state
list, Active Set), caller record and event trace are all exactly as
before, and no state object is allocated. -/
theorem add_duplicate_key_rejected (m : StateManager) (key? : Option String)
    (src : Source) (auto : Bool) (hb : m.booted = true)
    (hd : m.keys.any (fun kv => kv.1 == resolveKey key? src) = true) :
    add m key? src auto =
      { mgr := m,
        result := Except.error
          ("Cannot add a State with duplicate key: " ++ resolveKey key? src),
        srcAfter := src, events := [] } := by
  simp [add, getKey, hb, hd]

/-- C3 witness: re-adding key "a" to the fixture that already holds it is
rejected with the manager untouched. -/
theorem add_duplicate_key_rejected_witness :
    add mFreshDemo (some "a") srcFuncDemo false =
      { mgr := mFreshDemo,
        result := Except.error
          ("Cannot add a State with duplicate key: " ++ resolveKey (some "a") srcFuncDemo),
        srcAfter := srcFuncDemo, events := [] } :=
  add_duplicate_key_rejected mFreshDemo (some "a") srcFuncDemo false (by decide) (by decide)

/-- C6: a pre-boot add appends the pending record (index = current queue
length, original key, source and autoStart flag) and creates no
StateEntry, and boot replays the queued entries through add in insertion
order with their original arguments before clearing the queue (shown for
a two-entry queue). -/
theorem preboot_add_defers_and_boot_replays :
    (∀ m key? src auto, m.booted = false →
      add m key? src auto =
        { mgr := { m with pending := m.pending ++ [⟨m.pending.length, key?, src, auto⟩] },
          result := Except.ok none, srcAfter := src, events := [] }) ∧
    (∀ m p1 p2, m.booted = true → m.pending = [p1, p2] →
      boot m =
        ({ (add (add m p1.key p1.state p1.autoStart).mgr p2.key p2.state p2.autoStart).mgr
             with pending := [] },
         (add m p1.key p1.state p1.autoStart).events ++
           (add (add m p1.key p1.state p1.autoStart).mgr p2.key p2.state p2.autoStart).events)) := by
  constructor
  · intro m key? src auto hb
    simp [add, hb]
  · intro m p1 p2 hb hp
    unfold boot
    rw [hp]
    simp

/-- C6 witness: an add on the unbooted empty manager defers, and boot on
a two-entry queue replays both adds then clears the queue. -/
theorem preboot_add_defers_and_boot_replays_witness :
    add mUnbooted (some "a") srcFuncDemo true =
      { mgr := { mUnbooted with pending := mUnbooted.pending ++
          [⟨mUnbooted.pending.length, some "a", srcFuncDemo, true⟩] },
        result := Except.ok none, srcAfter := srcFuncDemo, events := [] } :=
  preboot_add_defers_and_boot_replays.1 mUnbooted (some "a") srcFuncDemo true (by decide)

/-- A configuration record carrying its own key "B". -/
def cfgKeyB : Config :=
  { key? := some "B", activeFlag := false, hasLoadUpdate := false, preloadAdds := 0 }

/-- An empty, booted manager. -/
def mEmptyBooted : StateManager :=
  { objs := [], keys := [], states := [], active := [], pending := [],
    booted := true }

/-- C9 counterexample: the claim predicts that an explicit key argument
wins, so add with explicit key "A" and a record whose own key field is
"B" would register under "A"; the code resolves to "B" (the embedded key
overrides the explicit argument) and registers the state under "B". -/
theorem explicit_key_overridden_by_source_key :
    resolveKey (some "A") (Source.config cfgKeyB) = "B" ∧
    ("B" : String) ≠ "A" ∧
    (add mEmptyBooted (some "A") (Source.config cfgKeyB) false).mgr.keys = [("B", 0)] := by
  decide

/-- C9 amended: the key embedded in the source takes precedence — a State
instance registers under its settings key and a record with an own key
property registers under that property, regardless of the explicit
argument; the explicit key argument is effective only for factory
functions and records without a key property, and the literal "default"
is used when the explicit argument is absent or empty and the source
embeds no key. -/
theorem effective_key_precedence :
    (∀ k s, resolveKey (some k) (Source.inst s) = s.key) ∧
    (∀ k c j, c.key? = some j → resolveKey (some k) (Source.config c) = j) ∧
    (∀ k c, c.key? = none → k ≠ "" → resolveKey (some k) (Source.config c) = k) ∧
    (∀ k r, k ≠ "" → resolveKey (some k) (Source.func r) = k) ∧
    (∀ s, resolveKey none (Source.inst s) = s.key) ∧
    (∀ c, c.key? = none → resolveKey none (Source.config c) = "default") ∧
    (∀ r, resolveKey none (Source.func r) = "default") := by
  refine ⟨fun k s => rfl, fun k c j hc => ?_, fun k c hc hk => ?_, fun k r hk => ?_,
    fun s => rfl, fun c hc => ?_, fun r => rfl⟩
  · simp [resolveKey, hc]
  · simp [resolveKey, hc, hk]
  · simp [resolveKey, hk]
  · simp [resolveKey, hc]

/-- C9 amended witness: precedence evaluated at concrete inputs. -/
theorem effective_key_precedence_witness :
    resolveKey (some "A") (Source.config cfgKeyB) = "B" ∧
    resolveKey (some "A") srcFuncDemo = "A" :=
  ⟨effective_key_precedence.2.1 "A" cfgKeyB "B" rfl,
   effective_key_precedence.2.2.2.1 "A"
     (FuncResult.bare { key? := none, activeFlag := false, hasLoadUpdate := false, preloadAdds := 0 })
     (by decide)⟩

/-- C10: a post-boot add whose source is a plain configuration record
mutates the caller's record itself: after the call the record's key field
holds the resolved effective key. -/
theorem add_mutates_config_record (m : StateManager) (key? : Option String)
    (c : Config) (auto : Bool) (hb : m.booted = true)
    (hfresh : m.keys.any (fun kv => kv.1 == resolveKey key? (Source.config c)) = false) :
    (add m key? (Source.config c) auto).srcAfter =
      Source.config { c with key? := some (resolveKey key? (Source.config c)) } := by
  simp only [add, hb, Bool.true_eq_false, if_false]
  rw [show getKey m key? (Source.config c) = Except.ok (resolveKey key? (Source.config c)) by
    simp [getKey, hfresh]]
  dsimp only
  split <;> rfl

theorem startCreate_mgr (m : StateManager) (sid : Nat) :
    (startCreate m sid).1 =
      setObj { m with active := sortActive (m.active ++ [⟨getStateIndex m sid, sid⟩]) } sid
        (fun s => { s with updatesRunning := true, mainloopRunning := true }) := rfl

theorem startCreate_events (m : StateManager) (sid : Nat) :
    (startCreate m sid).2 =
      (if (getObj m sid).hasCreate then [HookEv.create sid] else []) ++
        [HookEv.mlStart sid] := rfl

theorem getObj_setActive (m : StateManager) (l : List ActiveRecord) (sid : Nat) :
    getObj { m with active := l } sid = getObj m sid := rfl

/-- Normal form of start on the loading branch: state found, preload and
loader handle truthy, preload enqueues a non-zero number of loadables. -/
theorem start_loading_eq (m : StateManager) (key : String) (sid : Nat)
    (hb : m.booted = true) (hg : getState m key = some sid)
    (hlt : sid < m.objs.length)
    (hp : (getObj m sid).hasPreload = true) (hl : (getObj m sid).hasLoad = true)
    (hn : (getObj m sid).preloadAdds ≠ 0) :
    start m key =
      (setObj (setObj (setObj (setObj m sid (fun s => { s with active := true })) sid
            (fun s => { s with loadListSize := 0 })) sid
            (fun s => { s with loadListSize := s.loadListSize + s.preloadAdds })) sid
            (fun s => { s with loadOnceSubscribed := true, loaderStarted := true }),
       (if (getObj m sid).hasInit then [HookEv.init sid] else []) ++
         [HookEv.loaderReset sid, HookEv.preload sid] ++ [HookEv.loaderStart sid]) := by
  have h1 : getObj (setObj m sid (fun s => { s with active := true })) sid =
      { getObj m sid with active := true } := getObj_setObj _ _ _ hlt
  unfold start
  rw [if_neg (by simp [hb])]
  rw [hg]
  simp only [isActive_eq_false, Bool.false_eq_true, if_false]
  rw [h1]
  simp only [if_pos (by simp [hp, hl] : ({ getObj m sid with active := true }.hasPreload &&
    { getObj m sid with active := true }.hasLoad) = true)]
  rw [if_neg ?hsize]
  case hsize =>
    simp only [getObj_setObj, setObj_objs_length, hlt]
    simp [hn]

/-- Normal form of start when the state has no preload hook: the create
phase runs synchronously. -/
theorem start_nopreload_eq (m : StateManager) (key : String) (sid : Nat)
    (hb : m.booted = true) (hg : getState m key = some sid)
    (hlt : sid < m.objs.length)
    (hnp : (getObj m sid).hasPreload = false) :
    start m key =
      ((startCreate (setObj m sid (fun s => { s with active := true })) sid).1,
       (if (getObj m sid).hasInit then [HookEv.init sid] else []) ++
         (startCreate (setObj m sid (fun s => { s with active := true })) sid).2) := by
  have h1 : getObj (setObj m sid (fun s => { s with active := true })) sid =
      { getObj m sid with active := true } := getObj_setObj _ _ _ hlt
  unfold start
  rw [if_neg (by simp [hb])]
  rw [hg]
  simp only [isActive_eq_false, Bool.false_eq_true, if_false]
  rw [h1]
  rw [if_neg (by simp [hnp])]

theorem startCreate_mem (m : StateManager) (sid : Nat) :
    ∃ r ∈ (startCreate m sid).1.active, r.state = sid := by
  refine ⟨⟨getStateIndex m sid, sid⟩, ?_, rfl⟩
  rw [startCreate_active, mem_sortActive]
  simp

theorem getObj_startCreate (m : StateManager) (sid : Nat) (h : sid < m.objs.length) :
    getObj (startCreate m sid).1 sid =
      { getObj m sid with updatesRunning := true, mainloopRunning := true } := by
  rw [startCreate_mgr]
  exact getObj_setObj
    { m with active := sortActive (m.active ++ [⟨getStateIndex m sid, sid⟩]) } sid _ h

theorem loadComplete_mgr (m : StateManager) (sid : Nat) :
    (loadComplete m sid).1 = (startCreate m sid).1 := rfl

theorem loadComplete_events (m : StateManager) (sid : Nat) :
    (loadComplete m sid).2 =
      (if (getObj m sid).hasLoadUpdate then [HookEv.loadUpdate sid] else []) ++
        (startCreate m sid).2 := rfl

/-- C8: starting a registered state with no preload hook synchronously
runs init and create and inserts the state into the Active Set before
start returns; no loader subscription is made, so there is no
asynchronous suspension. -/
theorem start_no_preload_synchronous (m : StateManager) (key : String) (sid : Nat)
    (hb : m.booted = true) (hg : getState m key = some sid)
    (hlt : sid < m.objs.length)
    (hnp : (getObj m sid).hasPreload = false)
    (hi : (getObj m sid).hasInit = true) (hc : (getObj m sid).hasCreate = true)
    (hsub : (getObj m sid).loadOnceSubscribed = false) :
    (∃ r ∈ (start m key).1.active, r.state = sid) ∧
    (start m key).2 = [HookEv.init sid, HookEv.create sid, HookEv.mlStart sid] ∧
    (getObj (start m key).1 sid).loadOnceSubscribed = false := by
  rw [start_nopreload_eq m key sid hb hg hlt hnp]
  have h1 : getObj (setObj m sid (fun s => { s with active := true })) sid =
      { getObj m sid with active := true } := getObj_setObj _ _ _ hlt
  have hlt1 : sid < (setObj m sid (fun s => { s with active := true })).objs.length := by
    rw [setObj_objs_length]; exact hlt
  refine ⟨startCreate_mem _ sid, ?_, ?_⟩
  · rw [startCreate_events, h1]
    simp [hi, hc]
  · rw [getObj_startCreate _ sid hlt1, h1]
    simpa using hsub

/-- C8 witness: the no-preload conclusions at the concrete one-state
fixture. -/
theorem start_no_preload_synchronous_witness :
    (∃ r ∈ (start mFreshDemo "a").1.active, r.state = 0) ∧
    (start mFreshDemo "a").2 = [HookEv.init 0, HookEv.create 0, HookEv.mlStart 0] ∧
    (getObj (start mFreshDemo "a").1 0).loadOnceSubscribed = false :=
  start_no_preload_synchronous mFreshDemo "a" 0 (by decide) (by decide) (by decide)
    (by decide) (by decide) (by decide) (by decide)

/-- C4: starting a state whose preload enqueues at least one loadable
returns with the state absent from the Active Set, a one-shot completion
subscription registered and the loader commanded to start; when the
loader's completion notification fires, the state becomes Active, the
deprecated loadUpdate hook runs exactly once beforehand iff the state
defines one, and the subscription is consumed. -/
theorem start_with_preload_suspends (m : StateManager) (key : String) (sid : Nat)
    (hb : m.booted = true) (hg : getState m key = some sid)
    (hlt : sid < m.objs.length)
    (hp : (getObj m sid).hasPreload = true) (hl : (getObj m sid).hasLoad = true)
    (hn : (getObj m sid).preloadAdds ≠ 0)
    (hab : ∀ r ∈ m.active, r.state ≠ sid) :
    (∀ r ∈ (start m key).1.active, r.state ≠ sid) ∧
    (getObj (start m key).1 sid).loadOnceSubscribed = true ∧
    (getObj (start m key).1 sid).loaderStarted = true ∧
    (∃ r ∈ (fireLoaderComplete (start m key).1 sid).1.active, r.state = sid) ∧
    (fireLoaderComplete (start m key).1 sid).2 =
      (if (getObj m sid).hasLoadUpdate then [HookEv.loadUpdate sid] else []) ++
        ((if (getObj m sid).hasCreate then [HookEv.create sid] else []) ++
          [HookEv.mlStart sid]) ∧
    (getObj (fireLoaderComplete (start m key).1 sid).1 sid).loadOnceSubscribed = false := by
  rw [start_loading_eq m key sid hb hg hlt hp hl hn]
  dsimp only
  set m1 := setObj m sid (fun s => { s with active := true }) with hm1
  set m2 := setObj m1 sid (fun s => { s with loadListSize := 0 }) with hm2
  set m3 := setObj m2 sid (fun s => { s with loadListSize := s.loadListSize + s.preloadAdds }) with hm3
  set m4 := setObj m3 sid (fun s => { s with loadOnceSubscribed := true, loaderStarted := true }) with hm4
  have hlt1 : sid < m1.objs.length := by rw [hm1, setObj_objs_length]; exact hlt
  have hlt2 : sid < m2.objs.length := by rw [hm2, setObj_objs_length]; exact hlt1
  have hlt3 : sid < m3.objs.length := by rw [hm3, setObj_objs_length]; exact hlt2
  have hlt4 : sid < m4.objs.length := by rw [hm4, setObj_objs_length]; exact hlt3
  have h1 : getObj m1 sid = { getObj m sid with active := true } := by
    rw [hm1]; exact getObj_setObj _ _ _ hlt
  have h2 : getObj m2 sid = { getObj m sid with active := true, loadListSize := 0 } := by
    rw [hm2, getObj_setObj _ _ _ hlt1, h1]
  have h3 : getObj m3 sid =
      { getObj m sid with
        active := true
        loadListSize := 0 + (getObj m sid).preloadAdds } := by
    rw [hm3, getObj_setObj _ _ _ hlt2, h2]
  have h4 : getObj m4 sid =
      { getObj m sid with
        active := true
        loadListSize := 0 + (getObj m sid).preloadAdds
        loadOnceSubscribed := true
        loaderStarted := true } := by
    rw [hm4, getObj_setObj _ _ _ hlt3, h3]
  have hact : m4.active = m.active := by
    rw [hm4, hm3, hm2, hm1]; rfl
  have hfire : fireLoaderComplete m4 sid =
      loadComplete (setObj m4 sid (fun s => { s with loadOnceSubscribed := false })) sid := by
    rw [fireLoaderComplete, if_pos]
    rw [h4]
  set m5 := setObj m4 sid (fun s => { s with loadOnceSubscribed := false }) with hm5
  have hlt5 : sid < m5.objs.length := by rw [hm5, setObj_objs_length]; exact hlt4
  have h5 : getObj m5 sid =
      { getObj m sid with
        active := true
        loadListSize := 0 + (getObj m sid).preloadAdds
        loadOnceSubscribed := false
        loaderStarted := true } := by
    rw [hm5, getObj_setObj _ _ _ hlt4, h4]
  refine ⟨?_, ?_, ?_, ?_, ?_, ?_⟩
  · intro r hr
    rw [hact] at hr
    exact hab r hr
  · rw [h4]
  · rw [h4]
  · rw [hfire, loadComplete_mgr]
    exact startCreate_mem m5 sid
  · rw [hfire, loadComplete_events, startCreate_events, h5]
  · rw [hfire, loadComplete_mgr, getObj_startCreate m5 sid hlt5, h5]

/-- C4 witness: the loading-path conclusions at a concrete one-state
fixture whose preload enqueues two loadables. -/
theorem start_with_preload_suspends_witness :
    (∀ r ∈ (start mLoadDemo "a").1.active, r.state ≠ 0) ∧
    (getObj (start mLoadDemo "a").1 0).loadOnceSubscribed = true ∧
    (getObj (start mLoadDemo "a").1 0).loaderStarted = true ∧
    (∃ r ∈ (fireLoaderComplete (start mLoadDemo "a").1 0).1.active, r.state = 0) ∧
    (fireLoaderComplete (start mLoadDemo "a").1 0).2 =
      (if (getObj mLoadDemo 0).hasLoadUpdate then [HookEv.loadUpdate 0] else []) ++
        ((if (getObj mLoadDemo 0).hasCreate then [HookEv.create 0] else []) ++
          [HookEv.mlStart 0]) ∧
    (getObj (fireLoaderComplete (start mLoadDemo "a").1 0).1 0).loadOnceSubscribed = false :=
  start_with_preload_suspends mLoadDemo "a" 0 (by decide) (by decide) (by decide)
    (by decide) (by decide) (by decide) (by decide)

/-- A configuration record without an own key property. -/
def cfgNoKey : Config :=
  { key? := none, activeFlag := false, hasLoadUpdate := false, preloadAdds := 0 }

/-- C10 witness: adding a keyless record under explicit key "A" rewrites
the caller's record key field to "A". -/
theorem add_mutates_config_record_witness :
    (add mEmptyBooted (some "A") (Source.config cfgNoKey) false).srcAfter =
      Source.config
        { cfgNoKey with key? := some (resolveKey (some "A") (Source.config cfgNoKey)) } :=
  add_mutates_config_record mEmptyBooted (some "A") cfgNoKey false (by decide) (by decide)

end PhaserSM
